import Mathlib

/-!
# dwmstatus-zig: the Xlib binding layer `libx.c`

`libx.c` holds three wrappers over Xlib: `getDisplay`, `getRootWindow` and
`setRootName`.  The wrappers are embedded over an arbitrary implementation of
the four Xlib entry points they call (`Xlib σ`, explicit state passing over the
library state `σ`), so that every statement about forwarding holds for every
library.  Statements about what the calls do to the window properties are
settled on `xlib`, a reference library over an explicit client/server state.
-/

namespace LibX

/-! ## Handles -/

/-- A `Display *`: the address of the connection record; `0` is the null pointer. -/
abbrev Display := Nat

/-- A `Window`: an X resource identifier. -/
abbrev Window := Nat

/-- The null pointer, Xlib's failure sentinel for a display that could not be opened. -/
def NULL : Display := 0

/-! ## The library interface

The Xlib entry points, as functions on the library state.  A `char *` display
name is `Option String` (`none` is the null pointer), the `char *` handed to
store-name is the `String` it points to, and a result of `none` is a call
whose behaviour is undefined in C (a dereference of a pointer that is not a
live `Display`). -/

/-- The Xlib entry points used by `libx.c`, together with `XCloseDisplay`, the
library's only way to release a connection. -/
structure Xlib (σ : Type) where
  /-- Entry point `Display *XOpenDisplay(char *)`: the handle, or `NULL`. -/
  XOpenDisplay : Option String → σ → Display × σ
  /-- Query `DefaultRootWindow(dpy)` of `Xlib.h`: a read of the connection record. -/
  DefaultRootWindow : Display → σ → Option Window
  /-- Entry point `int XStoreName(Display *, Window, char *)`: status and new state. -/
  XStoreName : Display → Window → String → σ → Option (Int × σ)
  /-- Entry point `int XFlush(Display *)`: status and new state. -/
  XFlush : Display → σ → Option (Int × σ)
  /-- Entry point `int XCloseDisplay(Display *)`: never called by `libx.c`. -/
  XCloseDisplay : Display → σ → Option (Int × σ)

/-! ## The wrappers of `libx.c` -/

/-- Source: `Display *getDisplay(char *display) { return XOpenDisplay(display); }` -/
def getDisplay {σ : Type} (L : Xlib σ) (display : Option String) (s : σ) : Display × σ :=
  L.XOpenDisplay display s

/-- Source: `Window getRootWindow(Display *dpy) { return DefaultRootWindow(dpy); }` -/
def getRootWindow {σ : Type} (L : Xlib σ) (dpy : Display) (s : σ) : Option Window :=
  L.DefaultRootWindow dpy s

/-- Source: `void setRootName(Display *dpy, Window win, char *input)` with the
body `XStoreName(dpy, win, input); XFlush(dpy);`, both return values dropped. -/
def setRootName {σ : Type} (L : Xlib σ) (dpy : Display) (win : Window) (input : String)
    (s : σ) : Option (Unit × σ) :=
  match L.XStoreName dpy win input s with
  | none => none
  | some (_, s1) =>
    match L.XFlush dpy s1 with
    | none => none
    | some (_, s2) => some ((), s2)

/-- The spec's words for `setRootName`: "calling the underlying library's
name-set and flush directly", the name-set first, on the same arguments. -/
def specStoreThenFlush {σ : Type} (L : Xlib σ) (dpy : Display) (win : Window)
    (input : String) (s : σ) : Option (Unit × σ) :=
  (L.XStoreName dpy win input s).bind fun stored =>
    (L.XFlush dpy stored.2).map fun flushed => ((), flushed.2)

/-! ## A library that records its calls -/

/-- One call into the library. -/
inductive XCall where
  | openDisplay (name : Option String)
  | storeName (dpy : Display) (w : Window) (name : String)
  | flush (dpy : Display)
  | closeDisplay (dpy : Display)
deriving DecidableEq, Repr

/-- The library whose state is the list of calls made so far.  `opened` is what
every open returns, `root` what the root-window query reads, and `status` what
every store-name returns. -/
def traceXlib (opened : Display) (root : Option Window) (status : Int) : Xlib (List XCall) where
  XOpenDisplay name log := (opened, log ++ [XCall.openDisplay name])
  DefaultRootWindow _ _ := root
  XStoreName dpy w name log := some (status, log ++ [XCall.storeName dpy w name])
  XFlush dpy log := some (1, log ++ [XCall.flush dpy])
  XCloseDisplay dpy log := some (0, log ++ [XCall.closeDisplay dpy])

/-! ## The reference library -/

/-- Modelled from the spec: a protocol request waiting in a connection's output
buffer ("pending protocol requests"); the only request `libx.c` causes is the
one that replaces a window's name property. -/
inductive XRequest where
  | changeName (w : Window) (name : String)
deriving DecidableEq, Repr

/-- Modelled from the spec: a windowing server, with its root window ("the
top-level window owned by the windowing server"), its other windows, and the
name property of each window that has one. -/
structure Server where
  root : Window
  children : List Window
  names : List (Window × String)
deriving DecidableEq, Repr

/-- Modelled from the spec: a display connection ("a session with a windowing
server"): its handle, the display name it was opened with, the root window
recorded when it was opened, and its pending requests. -/
structure Conn where
  handle : Display
  display : Option String
  root : Window
  out : List XRequest
deriving DecidableEq, Repr

/-- Modelled from the spec: the state the library calls act on, the servers
reachable by display name (`none` is the default display) and the open
connections. -/
structure XState where
  servers : List (Option String × Server)
  conns : List Conn
deriving DecidableEq, Repr

/-- The connection with one more request queued behind the pending ones. -/
def Conn.enqueue (r : XRequest) (c : Conn) : Conn :=
  { c with out := c.out ++ [r] }

/-- The connection with its output buffer emptied. -/
def Conn.sent (c : Conn) : Conn :=
  { c with out := [] }

/-- The name property of window `w`, if it has one. -/
def nameOf : List (Window × String) → Window → Option String
  | [], _ => none
  | (w', s) :: rest, w => if w' = w then some s else nameOf rest w

/-- Replace the name property of window `w`. -/
def setName (names : List (Window × String)) (w : Window) (s : String) :
    List (Window × String) :=
  (w, s) :: names.filter fun p => decide (p.1 ≠ w)

/-- Whether `w` is a window of the server. -/
def Server.hasWindow (sv : Server) (w : Window) : Prop :=
  w = sv.root ∨ w ∈ sv.children

instance (sv : Server) (w : Window) : Decidable (sv.hasWindow w) := by
  unfold Server.hasWindow; infer_instance

/-- Modelled from the spec: the server executes one request; a request that
names a window the server does not have changes nothing. -/
def Server.handle (sv : Server) : XRequest → Server
  | XRequest.changeName w name =>
    if sv.hasWindow w then { sv with names := setName sv.names w name } else sv

/-- The server reached by a display name. -/
def findServer : List (Option String × Server) → Option String → Option Server
  | [], _ => none
  | (k, sv) :: rest, name => if k = name then some sv else findServer rest name

/-- Replace the server reached by a display name. -/
def putServer : List (Option String × Server) → Option String → Server →
    List (Option String × Server)
  | [], _, _ => []
  | (k, sv) :: rest, name, sv' =>
    if k = name then (k, sv') :: rest else (k, sv) :: putServer rest name sv'

/-- The connection record with a given handle. -/
def findConn : List Conn → Display → Option Conn
  | [], _ => none
  | c :: cs, dpy => if c.handle = dpy then some c else findConn cs dpy

/-- Rewrite the connection record with a given handle. -/
def modifyConn (f : Conn → Conn) (dpy : Display) : List Conn → List Conn
  | [] => []
  | c :: cs => if c.handle = dpy then f c :: cs else c :: modifyConn f dpy cs

/-- Drop the connection record with a given handle. -/
def removeConn (dpy : Display) : List Conn → List Conn
  | [] => []
  | c :: cs => if c.handle = dpy then cs else c :: removeConn dpy cs

/-- The live connection behind a handle; the null pointer is never one. -/
def XState.conn (st : XState) (dpy : Display) : Option Conn :=
  if dpy = NULL then none else findConn st.conns dpy

/-- A handle no open connection uses, and not the null pointer. -/
def freshHandle (cs : List Conn) : Display :=
  (cs.foldr (fun c m => max c.handle m) 0) + 1

/-- Modelled from the spec: display-open, "open a display connection given an
optional name (null selects the default display); returns the connection handle
or a failure indicator" (the null handle) when no server answers to the name. -/
def xOpenDisplay (name : Option String) (st : XState) : Display × XState :=
  match findServer st.servers name with
  | none => (NULL, st)
  | some sv =>
    (freshHandle st.conns,
     { servers := st.servers,
       conns := { handle := freshHandle st.conns, display := name,
                  root := sv.root, out := [] } :: st.conns })

/-- Modelled from the spec: default-root-window-query, "the default root window
identifier for a given open connection"; it "assumes the connection handle is
valid", so any other handle is the error case. -/
def xDefaultRootWindow (dpy : Display) (st : XState) : Option Window :=
  (st.conn dpy).map fun c => c.root

/-- Modelled from the spec: store-name, which queues the request that sets the
window's name property to the given string, unmodified, and reports success. -/
def xStoreName (dpy : Display) (w : Window) (name : String) (st : XState) :
    Option (Int × XState) :=
  match st.conn dpy with
  | none => none
  | some _ =>
    some (1, { servers := st.servers,
               conns := modifyConn (Conn.enqueue (XRequest.changeName w name)) dpy st.conns })

/-- Modelled from the spec: flush, which "flushes pending protocol requests
immediately": the server executes the connection's pending requests in the
order they were queued and the buffer is left empty. -/
def xFlush (dpy : Display) (st : XState) : Option (Int × XState) :=
  match st.conn dpy with
  | none => none
  | some c =>
    match findServer st.servers c.display with
    | none => none
    | some sv =>
      some (1, { servers := putServer st.servers c.display (c.out.foldl Server.handle sv),
                 conns := modifyConn Conn.sent dpy st.conns })

/-- Modelled from the spec: the release of a connection, which `libx.c` leaves
to "the caller or the library": pending requests are delivered and the
connection record is dropped. -/
def xCloseDisplay (dpy : Display) (st : XState) : Option (Int × XState) :=
  match xFlush dpy st with
  | none => none
  | some (_, st1) => some (0, { servers := st1.servers, conns := removeConn dpy st1.conns })

/-- Modelled from the spec: the reference library, the entry points above. -/
def xlib : Xlib XState where
  XOpenDisplay := xOpenDisplay
  DefaultRootWindow := xDefaultRootWindow
  XStoreName := xStoreName
  XFlush := xFlush
  XCloseDisplay := xCloseDisplay

/-! ## Observations on the reference state -/

/-- Whether `dpy` is the handle of an open connection. -/
def isOpen (st : XState) (dpy : Display) : Bool :=
  (st.conn dpy).isSome

/-- The requests queued on `dpy` and not yet sent. -/
def pending (st : XState) (dpy : Display) : Option (List XRequest) :=
  (st.conn dpy).map fun c => c.out

/-- The server `dpy` is connected to. -/
def serverOf (st : XState) (dpy : Display) : Option Server :=
  (st.conn dpy).bind fun c => findServer st.servers c.display

/-- The name property of window `w` on the server `dpy` is connected to. -/
def windowName (st : XState) (dpy : Display) (w : Window) : Option String :=
  (serverOf st dpy).bind fun sv => nameOf sv.names w

/-- The name property of the root window of `dpy`. -/
def rootName (st : XState) (dpy : Display) : Option String :=
  (getRootWindow xlib dpy st).bind fun w => windowName st dpy w

/-- A state with one server on the default display, holding the root window
`1` and one more window `2`, and one open connection to it. -/
def sampleState : XState where
  servers := [(none, { root := 1, children := [2], names := [] })]
  conns := [{ handle := 1, display := none, root := 1, out := [] }]

/-- The sample state with the root window already named and a request still
pending on the connection. -/
def busyState : XState where
  servers := [(none, { root := 1, children := [2], names := [(1, "old")] })]
  conns := [{ handle := 1, display := none, root := 1, out := [XRequest.changeName 2 "queued"] }]

/-- The sample state once the root window has been named "status". -/
def namedState : XState where
  servers := [(none, { root := 1, children := [2], names := [(1, "status")] })]
  conns := [{ handle := 1, display := none, root := 1, out := [] }]

/-- A state with one server on the default display and no connection yet. -/
def freshState : XState where
  servers := [(none, { root := 1, children := [2], names := [(1, "old")] })]
  conns := []

/-! ## Lemmas on the reference state -/

theorem findConn_modifyConn (f : Conn → Conn) (hf : ∀ c, (f c).handle = c.handle)
    (dpy d : Display) (cs : List Conn) :
    findConn (modifyConn f dpy cs) d =
      if d = dpy then (findConn cs d).map f else findConn cs d := by
  induction cs with
  | nil => simp [modifyConn, findConn]
  | cons c cs ih =>
    by_cases h : c.handle = dpy
    · by_cases hd : d = dpy
      · simp [modifyConn, findConn, h, hd, hf]
      · have hd' : ¬ dpy = d := fun e => hd e.symm
        simp [modifyConn, findConn, h, hd, hd', hf]
    · by_cases hd : d = dpy
      · subst hd
        simp [modifyConn, findConn, h, ih]
      · simp only [modifyConn, findConn, h, if_false, ih, hd]

theorem modifyConn_modifyConn (f g : Conn → Conn) (hg : ∀ c, (g c).handle = c.handle)
    (dpy : Display) (cs : List Conn) :
    modifyConn f dpy (modifyConn g dpy cs) = modifyConn (fun c => f (g c)) dpy cs := by
  induction cs with
  | nil => simp [modifyConn]
  | cons c cs ih =>
    by_cases h : c.handle = dpy
    · simp [modifyConn, h, hg]
    · simp [modifyConn, h, ih]

theorem findServer_putServer (l : List (Option String × Server)) (k d : Option String)
    (sv' : Server) :
    findServer (putServer l k sv') d =
      if d = k then (findServer l d).map (fun _ => sv') else findServer l d := by
  induction l with
  | nil => simp [putServer, findServer]
  | cons p l ih =>
    obtain ⟨k', sv⟩ := p
    by_cases h : k' = k
    · by_cases hd : d = k
      · simp [putServer, findServer, h, hd]
      · have hd' : ¬ k = d := fun e => hd e.symm
        simp [putServer, findServer, h, hd, hd']
    · by_cases hd : d = k
      · subst hd
        simp [putServer, findServer, h, ih]
      · simp only [putServer, findServer, h, if_false, ih, hd]

theorem putServer_putServer (l : List (Option String × Server)) (k : Option String)
    (a b : Server) : putServer (putServer l k a) k b = putServer l k b := by
  induction l with
  | nil => simp [putServer]
  | cons p l ih =>
    obtain ⟨k', sv⟩ := p
    by_cases h : k' = k
    · simp [putServer, h]
    · simp [putServer, h, ih]

theorem setName_setName (names : List (Window × String)) (w : Window) (s1 s2 : String) :
    setName (setName names w s1) w s2 = setName names w s2 := by
  simp [setName, List.filter_cons, List.filter_filter]

theorem nameOf_setName (names : List (Window × String)) (w : Window) (s : String) :
    nameOf (setName names w s) w = some s := by
  simp [setName, nameOf]

theorem handle_changeName_twice (sv : Server) (w : Window) (s1 s2 : String) :
    (sv.handle (XRequest.changeName w s1)).handle (XRequest.changeName w s2) =
      sv.handle (XRequest.changeName w s2) := by
  by_cases h : sv.hasWindow w
  · have h' : ({ sv with names := setName sv.names w s1 } : Server).hasWindow w := h
    simp [Server.handle, h, h', setName_setName]
  · simp [Server.handle, h]

theorem nameOf_handle_changeName (sv : Server) (w : Window) (s : String)
    (h : sv.hasWindow w) : nameOf (sv.handle (XRequest.changeName w s)).names w = some s := by
  simp [Server.handle, h, nameOf_setName]

theorem handle_root (sv : Server) (r : XRequest) :
    (sv.handle r).root = sv.root ∧ (sv.handle r).children = sv.children := by
  cases r with
  | changeName w s =>
    by_cases h : sv.hasWindow w
    · simp [Server.handle, h]
    · simp [Server.handle, h]

theorem foldl_handle_root (rs : List XRequest) (sv : Server) :
    (rs.foldl Server.handle sv).root = sv.root ∧
      (rs.foldl Server.handle sv).children = sv.children := by
  induction rs generalizing sv with
  | nil => simp
  | cons r rs ih =>
    simp only [List.foldl_cons]
    exact ⟨(ih _).1.trans (handle_root sv r).1, (ih _).2.trans (handle_root sv r).2⟩

theorem foldl_handle_hasWindow (rs : List XRequest) (sv : Server) (w : Window)
    (h : sv.hasWindow w) : (rs.foldl Server.handle sv).hasWindow w := by
  unfold Server.hasWindow at *
  rw [(foldl_handle_root rs sv).1, (foldl_handle_root rs sv).2]
  exact h

theorem conn_ne_null (st : XState) (dpy : Display) (c : Conn) (h : st.conn dpy = some c) :
    dpy ≠ NULL ∧ findConn st.conns dpy = some c := by
  unfold XState.conn at h
  by_cases hn : dpy = NULL
  · simp [hn] at h
  · simp [hn] at h
    exact ⟨hn, h⟩

/-- What `setRootName` does on the reference library, on a live connection:
the server executes what was pending and then the name change, and the
connection's buffer is left empty. -/
theorem setRootName_live (st : XState) (dpy : Display) (win : Window) (input : String)
    (c : Conn) (sv : Server) (hc : st.conn dpy = some c)
    (hs : findServer st.servers c.display = some sv) :
    setRootName xlib dpy win input st =
      some ((), { servers := putServer st.servers c.display
                    ((c.out.foldl Server.handle sv).handle (XRequest.changeName win input)),
                  conns := modifyConn Conn.sent dpy st.conns }) := by
  obtain ⟨hn, hf⟩ := conn_ne_null st dpy c hc
  simp only [setRootName, xlib, xStoreName, hc]
  simp only [xFlush, XState.conn, hn, if_false]
  rw [findConn_modifyConn (Conn.enqueue _) (fun _ => rfl)]
  simp only [if_true, hf, Option.map_some', hs, Conn.enqueue]
  rw [modifyConn_modifyConn Conn.sent (Conn.enqueue _) (fun _ => rfl)]
  simp only [List.foldl_append, List.foldl_cons, List.foldl_nil]
  rfl

theorem conn_of_findConn (st : XState) (dpy : Display) (hn : dpy ≠ NULL) :
    st.conn dpy = findConn st.conns dpy := by
  simp [XState.conn, hn]

/-- After `setRootName` on a live connection of the reference library: the call
returns, the connection is the old one with an empty buffer, and its server is
the old one after the pending requests and then the name change. -/
theorem setRootName_live_obs (st : XState) (dpy : Display) (win : Window) (input : String)
    (c : Conn) (sv : Server) (hc : st.conn dpy = some c)
    (hs : findServer st.servers c.display = some sv) :
    ∃ st', setRootName xlib dpy win input st = some ((), st') ∧
      st'.conn dpy = some c.sent ∧
      findServer st'.servers c.display =
        some ((c.out.foldl Server.handle sv).handle (XRequest.changeName win input)) := by
  obtain ⟨hn, hf⟩ := conn_ne_null st dpy c hc
  refine ⟨_, setRootName_live st dpy win input c sv hc hs, ?_, ?_⟩
  · rw [conn_of_findConn _ _ hn]
    simp only []
    rw [findConn_modifyConn Conn.sent (fun _ => rfl)]
    simp [hf]
  · simp only []
    rw [findServer_putServer]
    simp [hs]

theorem setRootName_dead (st : XState) (dpy : Display) (win : Window) (input : String)
    (hc : st.conn dpy = none) : setRootName xlib dpy win input st = none := by
  simp [setRootName, xlib, xStoreName, hc]

theorem setRootName_unreachable (st : XState) (dpy : Display) (win : Window) (input : String)
    (c : Conn) (hc : st.conn dpy = some c) (hs : findServer st.servers c.display = none) :
    setRootName xlib dpy win input st = none := by
  obtain ⟨hn, hf⟩ := conn_ne_null st dpy c hc
  simp only [setRootName, xlib, xStoreName, hc]
  simp only [xFlush, XState.conn, hn, if_false]
  rw [findConn_modifyConn (Conn.enqueue _) (fun _ => rfl)]
  simp [hf, Conn.enqueue, hs]

theorem findConn_handle_le (cs : List Conn) (d : Display) (c : Conn)
    (h : findConn cs d = some c) : d ≤ cs.foldr (fun c m => max c.handle m) 0 := by
  induction cs with
  | nil => simp [findConn] at h
  | cons a cs ih =>
    by_cases ha : a.handle = d
    · simp only [List.foldr_cons]
      exact ha ▸ le_max_left _ _
    · simp only [findConn, ha, if_false] at h
      simp only [List.foldr_cons]
      exact le_trans (ih h) (le_max_right _ _)

theorem findConn_freshHandle (cs : List Conn) : findConn cs (freshHandle cs) = none := by
  cases h : findConn cs (freshHandle cs) with
  | none => rfl
  | some c =>
    have := findConn_handle_le cs _ c h
    exact absurd this (Nat.not_succ_le_self _)

theorem freshHandle_ne_null (cs : List Conn) : freshHandle cs ≠ NULL := by
  simp [freshHandle, NULL]

theorem isOpen_iff (st : XState) (d : Display) :
    isOpen st d = true ↔ d ≠ NULL ∧ (findConn st.conns d).isSome = true := by
  unfold isOpen XState.conn
  by_cases hn : d = NULL
  · simp [hn]
  · simp [hn]

/-! ## The claims -/

/-- C1: for every library, every display name (the null name included) and
every library state, `getDisplay` returns exactly what the library's
display-open returns for that name, state included; so it returns the null
handle exactly when the open does, and it calls the open once, with the name
it was given, whatever the open returns. -/
theorem getDisplay_is_XOpenDisplay {σ : Type} (L : Xlib σ) (name : Option String) (s : σ) :
    getDisplay L name s = L.XOpenDisplay name s ∧
    ((getDisplay L name s).1 = NULL ↔ (L.XOpenDisplay name s).1 = NULL) ∧
    (∀ (opened : Display) (root : Option Window) (status : Int) (log : List XCall),
      getDisplay (traceXlib opened root status) name log =
        (opened, log ++ [XCall.openDisplay name])) :=
  ⟨rfl, Iff.rfl, fun _ _ _ _ => rfl⟩

/-- C2: for every library, every connection handle and every library state,
`getRootWindow` returns what the library's default-root-window query returns
on that handle; on the reference library that is the root window recorded in
the connection whenever the handle is live. -/
theorem getRootWindow_is_DefaultRootWindow {σ : Type} (L : Xlib σ) (dpy : Display) (s : σ) :
    getRootWindow L dpy s = L.DefaultRootWindow dpy s ∧
    (∀ (st : XState) (c : Conn), st.conn dpy = some c →
      getRootWindow xlib dpy st = some c.root) := by
  refine ⟨rfl, fun st c hc => ?_⟩
  simp [getRootWindow, xlib, xDefaultRootWindow, hc]

/-- C2 at the sample state: the root window of connection `1` is window `1`. -/
theorem getRootWindow_is_DefaultRootWindow_witness :
    getRootWindow xlib 1 sampleState = xlib.DefaultRootWindow 1 sampleState ∧
    getRootWindow xlib 1 sampleState = some 1 :=
  ⟨(getRootWindow_is_DefaultRootWindow xlib 1 sampleState).1,
   (getRootWindow_is_DefaultRootWindow xlib 1 sampleState).2 sampleState
     { handle := 1, display := none, root := 1, out := [] } rfl⟩

/-- C3: for every library, `setRootName dpy win input` is the library's
store-name on `(dpy, win, input)` followed by the library's flush on `dpy`
(same result and same final state); the calls it makes are exactly one
store-name with the arguments unchanged and then one flush; and on a live
connection of the reference library it returns with nothing pending. -/
theorem setRootName_is_store_then_flush {σ : Type} (L : Xlib σ) (dpy : Display)
    (win : Window) (input : String) (s : σ) :
    setRootName L dpy win input s = specStoreThenFlush L dpy win input s ∧
    (∀ (opened : Display) (root : Option Window) (status : Int) (log : List XCall),
      setRootName (traceXlib opened root status) dpy win input log =
        some ((), log ++ [XCall.storeName dpy win input, XCall.flush dpy])) ∧
    (∀ (st : XState) (c : Conn) (sv : Server), st.conn dpy = some c →
      findServer st.servers c.display = some sv →
      ∃ st', setRootName xlib dpy win input st = some ((), st') ∧
        pending st' dpy = some []) := by
  refine ⟨?_, ?_, ?_⟩
  · unfold setRootName specStoreThenFlush
    cases h1 : L.XStoreName dpy win input s with
    | none => rfl
    | some r1 =>
      obtain ⟨a, s1⟩ := r1
      simp only [Option.some_bind]
      cases h2 : L.XFlush dpy s1 with
      | none => rfl
      | some r2 => rfl
  · intro opened root status log
    simp [setRootName, traceXlib]
  · intro st c sv hc hs
    obtain ⟨st', h, hconn, _⟩ := setRootName_live_obs st dpy win input c sv hc hs
    exact ⟨st', h, by simp [pending, hconn, Conn.sent]⟩

/-- C3 at the sample state, with a request already pending on the connection. -/
theorem setRootName_is_store_then_flush_witness :
    pending busyState 1 = some [XRequest.changeName 2 "queued"] ∧
    setRootName xlib 1 1 "load 0.42" busyState =
      specStoreThenFlush xlib 1 1 "load 0.42" busyState ∧
    ∃ st', setRootName xlib 1 1 "load 0.42" busyState = some ((), st') ∧
      pending st' 1 = some [] :=
  ⟨rfl, (setRootName_is_store_then_flush xlib 1 1 "load 0.42" busyState).1,
   (setRootName_is_store_then_flush xlib 1 1 "load 0.42" busyState).2.2 busyState
     { handle := 1, display := none, root := 1, out := [XRequest.changeName 2 "queued"] }
     { root := 1, children := [2], names := [(1, "old")] } rfl rfl⟩

/-- C4 as stated fails: in the sample state connection `1` is open with root
window `1`; `setRootName 1 2 "status"` returns, and afterwards the root window
still has no name property, the name went to window `2`. -/
theorem setRootName_names_win_not_root :
    getRootWindow xlib 1 sampleState = some 1 ∧
    ∃ st', setRootName xlib 1 2 "status" sampleState = some ((), st') ∧
      rootName st' 1 = none ∧ rootName st' 1 ≠ some "status" ∧
      windowName st' 1 2 = some "status" :=
  ⟨rfl, _, rfl, by decide, by decide, by decide⟩

/-- C4, amended: on a live connection `dpy` of the reference library, for every
window `win` of its server and every string `input`, `setRootName dpy win
input` returns and leaves the name property of `win` equal to `input`; when
`win` is the root window of `dpy`, that is the name of the root window. -/
theorem setRootName_sets_name_of_win (st : XState) (dpy : Display) (win : Window)
    (input : String) (c : Conn) (sv : Server) (hc : st.conn dpy = some c)
    (hs : findServer st.servers c.display = some sv) (hw : sv.hasWindow win) :
    ∃ st', setRootName xlib dpy win input st = some ((), st') ∧
      windowName st' dpy win = some input ∧
      (getRootWindow xlib dpy st = some win → rootName st' dpy = some input) := by
  obtain ⟨st', h, hconn, hserv⟩ := setRootName_live_obs st dpy win input c sv hc hs
  have hname : windowName st' dpy win = some input := by
    have hsd : findServer st'.servers c.sent.display = _ := hserv
    simp only [windowName, serverOf, hconn, Option.some_bind, hsd]
    exact nameOf_handle_changeName _ win input (foldl_handle_hasWindow _ sv win hw)
  refine ⟨st', h, hname, fun hroot => ?_⟩
  have hr : c.root = win := by
    simpa [getRootWindow, xlib, xDefaultRootWindow, hc] using hroot
  have hr' : getRootWindow xlib dpy st' = some win := by
    simp [getRootWindow, xlib, xDefaultRootWindow, hconn, Conn.sent, hr]
  simp only [rootName, hr', Option.some_bind, hname]

/-- C4, amended, at the sample state: naming the root window `1`. -/
theorem setRootName_sets_name_of_win_witness :
    ∃ st', setRootName xlib 1 1 "status" sampleState = some ((), st') ∧
      windowName st' 1 1 = some "status" ∧ rootName st' 1 = some "status" :=
  match setRootName_sets_name_of_win sampleState 1 1 "status"
      { handle := 1, display := none, root := 1, out := [] }
      { root := 1, children := [2], names := [] } rfl rfl (Or.inl rfl) with
  | ⟨st', h, hname, hroot⟩ => ⟨st', h, hname, hroot rfl⟩

/-- C5: on the reference library, for every state, every display name for which
the open succeeds and every string `s`, the sequence `d = getDisplay name`,
`w = getRootWindow d`, `setRootName d w s` runs to the end, and then the name
property of the root window of `d` is `s` on the server, with nothing left
pending on `d`. -/
theorem open_root_set_sequence (st : XState) (name : Option String) (s : String)
    (hopen : (getDisplay xlib name st).1 ≠ NULL) :
    ∃ w st2,
      getRootWindow xlib (getDisplay xlib name st).1 (getDisplay xlib name st).2 = some w ∧
      setRootName xlib (getDisplay xlib name st).1 w s (getDisplay xlib name st).2 =
        some ((), st2) ∧
      rootName st2 (getDisplay xlib name st).1 = some s ∧
      pending st2 (getDisplay xlib name st).1 = some [] := by
  cases hsv : findServer st.servers name with
  | none => simp [getDisplay, xlib, xOpenDisplay, hsv] at hopen
  | some sv =>
    have hd : getDisplay xlib name st =
        (freshHandle st.conns,
         { servers := st.servers,
           conns := { handle := freshHandle st.conns, display := name,
                      root := sv.root, out := [] } :: st.conns }) := by
      simp [getDisplay, xlib, xOpenDisplay, hsv]
    rw [hd]
    simp only []
    have hc : XState.conn
        { servers := st.servers,
          conns := { handle := freshHandle st.conns, display := name,
                     root := sv.root, out := [] } :: st.conns } (freshHandle st.conns) =
        some { handle := freshHandle st.conns, display := name, root := sv.root, out := [] } := by
      rw [conn_of_findConn _ _ (freshHandle_ne_null _)]
      simp [findConn]
    obtain ⟨st2, h, hconn, hserv⟩ :=
      setRootName_live_obs _ (freshHandle st.conns) sv.root s _ sv hc hsv
    have hroot : getRootWindow xlib (freshHandle st.conns) st2 = some sv.root := by
      simp [getRootWindow, xlib, xDefaultRootWindow, hconn, Conn.sent]
    refine ⟨sv.root, st2, ?_, h, ?_, ?_⟩
    · simp [getRootWindow, xlib, xDefaultRootWindow, hc]
    · have hsd : findServer st2.servers
          (Conn.sent { handle := freshHandle st.conns, display := name,
                       root := sv.root, out := [] }).display = _ := hserv
      simp only [rootName, hroot, windowName, serverOf, hconn, Option.some_bind, hsd]
      exact nameOf_handle_changeName _ sv.root s
        (foldl_handle_hasWindow _ sv sv.root (Or.inl rfl))
    · simp [pending, hconn, Conn.sent]

/-- C5 at a state with a server on the default display and no connection yet:
the root window was named "old" and ends up named "up 3 days". -/
theorem open_root_set_sequence_witness :
    (getDisplay xlib none freshState).1 ≠ NULL ∧
    rootName (getDisplay xlib none freshState).2 (getDisplay xlib none freshState).1 =
      some "old" ∧
    ∃ w st2,
      getRootWindow xlib (getDisplay xlib none freshState).1
        (getDisplay xlib none freshState).2 = some w ∧
      setRootName xlib (getDisplay xlib none freshState).1 w "up 3 days"
        (getDisplay xlib none freshState).2 = some ((), st2) ∧
      rootName st2 (getDisplay xlib none freshState).1 = some "up 3 days" ∧
      pending st2 (getDisplay xlib none freshState).1 = some [] :=
  ⟨by decide, by decide, open_root_set_sequence freshState none "up 3 days" (by decide)⟩

/-- C6: for every library, whatever status the library's store-name returns
(`0` for a failure included), `setRootName` goes on to the flush on `dpy`, on
the state the store-name left, and its own result carries no status: it is the
unit value and the state after the flush.  On the recording library the calls
made and the result are the same for every status. -/
theorem setRootName_drops_status {σ : Type} (L : Xlib σ) (dpy : Display) (win : Window)
    (input : String) (s s1 : σ) (status : Int)
    (hstore : L.XStoreName dpy win input s = some (status, s1)) :
    setRootName L dpy win input s = (L.XFlush dpy s1).map (fun flushed => ((), flushed.2)) ∧
    (∀ (opened : Display) (root : Option Window) (status' : Int) (log : List XCall),
      setRootName (traceXlib opened root status') dpy win input log =
        some ((), log ++ [XCall.storeName dpy win input, XCall.flush dpy])) := by
  refine ⟨?_, ?_⟩
  · simp only [setRootName, hstore]
    cases h2 : L.XFlush dpy s1 with
    | none => rfl
    | some r2 => rfl
  · intro opened root status' log
    simp [setRootName, traceXlib]

/-- C6 on the recording library with a store-name that reports failure (`0`):
the flush is still made and the result is the one of a successful store. -/
theorem setRootName_drops_status_witness :
    (traceXlib 1 none 0).XStoreName 1 7 "x" [] = some (0, [XCall.storeName 1 7 "x"]) ∧
    setRootName (traceXlib 1 none 0) 1 7 "x" [] =
      some ((), [XCall.storeName 1 7 "x", XCall.flush 1]) ∧
    setRootName (traceXlib 1 none 0) 1 7 "x" [] = setRootName (traceXlib 1 none 1) 1 7 "x" [] :=
  ⟨rfl,
   (setRootName_drops_status (traceXlib 1 none 0) 1 7 "x" [] [XCall.storeName 1 7 "x"] 0 rfl).1,
   ((setRootName_drops_status (traceXlib 1 none 0) 1 7 "x" [] [XCall.storeName 1 7 "x"] 0
      rfl).2 1 none 0 []).trans
    ((setRootName_drops_status (traceXlib 1 none 0) 1 7 "x" [] [XCall.storeName 1 7 "x"] 0
      rfl).2 1 none 1 []).symm⟩

/-- C7: on the reference library, over the set of open connections (`isOpen`):
`getDisplay` keeps every open connection open and the only handle it can add
is the one it returns, which was not open before; `setRootName`, whenever it
returns, leaves the set as it was; `getRootWindow` is a read and yields no
state.  On the recording library neither `getDisplay` nor `setRootName` makes
a close-display call. -/
theorem wrappers_release_no_connection (st : XState) :
    (∀ (name : Option String) (d : Display), isOpen st d = true →
      isOpen (getDisplay xlib name st).2 d = true) ∧
    (∀ (name : Option String) (d : Display), isOpen (getDisplay xlib name st).2 d = true →
      isOpen st d = true ∨ (d = (getDisplay xlib name st).1 ∧ isOpen st d = false)) ∧
    (∀ (dpy : Display) (win : Window) (input : String) (st' : XState),
      setRootName xlib dpy win input st = some ((), st') →
      ∀ d, isOpen st' d = isOpen st d) ∧
    (∀ (name : Option String) (opened : Display) (root : Option Window) (status : Int)
      (log : List XCall) (d : Display),
      XCall.closeDisplay d ∈ (getDisplay (traceXlib opened root status) name log).2 →
      XCall.closeDisplay d ∈ log) ∧
    (∀ (dpy : Display) (win : Window) (input : String) (opened : Display)
      (root : Option Window) (status : Int) (log log' : List XCall) (d : Display),
      setRootName (traceXlib opened root status) dpy win input log = some ((), log') →
      XCall.closeDisplay d ∈ log' → XCall.closeDisplay d ∈ log) := by
  refine ⟨?_, ?_, ?_, ?_, ?_⟩
  · intro name d hd
    cases hsv : findServer st.servers name with
    | none => simpa [getDisplay, xlib, xOpenDisplay, hsv] using hd
    | some sv =>
      obtain ⟨hn, hf⟩ := (isOpen_iff st d).1 hd
      simp only [getDisplay, xlib, xOpenDisplay, hsv]
      rw [isOpen_iff]
      refine ⟨hn, ?_⟩
      by_cases hfr : freshHandle st.conns = d
      · simp [findConn, hfr]
      · simpa [findConn, hfr] using hf
  · intro name d hd
    cases hsv : findServer st.servers name with
    | none =>
      left
      simpa [getDisplay, xlib, xOpenDisplay, hsv] using hd
    | some sv =>
      simp only [getDisplay, xlib, xOpenDisplay, hsv] at hd ⊢
      obtain ⟨hn, hf⟩ := (isOpen_iff _ d).1 hd
      by_cases hfr : freshHandle st.conns = d
      · right
        refine ⟨hfr.symm, ?_⟩
        cases ho : isOpen st d with
        | false => rfl
        | true =>
          have := ((isOpen_iff st d).1 ho).2
          rw [← hfr, findConn_freshHandle] at this
          simp at this
      · left
        rw [isOpen_iff]
        refine ⟨hn, ?_⟩
        simpa [findConn, hfr] using hf
  · intro dpy win input st' h d
    cases hc : st.conn dpy with
    | none =>
      rw [setRootName_dead st dpy win input hc] at h
      simp at h
    | some c =>
      cases hs : findServer st.servers c.display with
      | none =>
        rw [setRootName_unreachable st dpy win input c hc hs] at h
        simp at h
      | some sv =>
        rw [setRootName_live st dpy win input c sv hc hs] at h
        simp only [Option.some.injEq, Prod.mk.injEq, true_and] at h
        subst h
        unfold isOpen XState.conn
        by_cases hn : d = NULL
        · simp [hn]
        · simp only [hn, if_false]
          rw [findConn_modifyConn Conn.sent (fun _ => rfl)]
          by_cases hd : d = dpy
          · simp [hd]
          · simp [hd]
  · intro name opened root status log d h
    simpa [getDisplay, traceXlib] using h
  · intro dpy win input opened root status log log' d h hmem
    simp only [setRootName, traceXlib, Option.some.injEq, Prod.mk.injEq, true_and] at h
    subst h
    simpa using hmem

/-- C7 at the sample state: connection `1` is open and stays open across
`getDisplay` and `setRootName`, although the library's close-display would
have released it. -/
theorem wrappers_release_no_connection_witness :
    isOpen sampleState 1 = true ∧
    (xCloseDisplay 1 sampleState).map (fun r => isOpen r.2 1) = some false ∧
    isOpen (getDisplay xlib none sampleState).2 1 = true ∧
    setRootName xlib 1 1 "status" sampleState = some ((), namedState) ∧
    isOpen namedState 1 = isOpen sampleState 1 :=
  ⟨rfl, rfl, (wrappers_release_no_connection sampleState).1 none 1 rfl, rfl,
   (wrappers_release_no_connection sampleState).2.2.1 1 1 "status" namedState rfl 1⟩

/-- C8: `getRootWindow` adds no check to the library's root-window query, for
every library and every handle, valid or not.  On the reference library it
is defined exactly on the handles of open connections, so validity of `dpy`
is its only precondition; the null handle is the error case; and the null
handle a failed `getDisplay` returns, passed on to `getRootWindow`, is that
error case. -/
theorem getRootWindow_checks_nothing :
    (∀ (σ : Type) (L : Xlib σ) (dpy : Display) (s : σ),
      getRootWindow L dpy s = L.DefaultRootWindow dpy s) ∧
    (∀ (st : XState) (dpy : Display), (getRootWindow xlib dpy st).isSome = isOpen st dpy) ∧
    (∀ (st : XState), getRootWindow xlib NULL st = none) ∧
    (∀ (st : XState) (name : Option String), (getDisplay xlib name st).1 = NULL →
      getRootWindow xlib (getDisplay xlib name st).1 (getDisplay xlib name st).2 = none) := by
  refine ⟨fun _ _ _ _ => rfl, ?_, ?_, ?_⟩
  · intro st dpy
    simp [getRootWindow, xlib, xDefaultRootWindow, isOpen]
  · intro st
    simp [getRootWindow, xlib, xDefaultRootWindow, XState.conn]
  · intro st name h
    rw [h]
    simp [getRootWindow, xlib, xDefaultRootWindow, XState.conn]

/-- C8 at a state where no server answers to the name ":9": the open fails
with the null handle and the root-window query on it is the error case, while
the query on the open connection `1` is defined. -/
theorem getRootWindow_checks_nothing_witness :
    (getDisplay xlib (some ":9") sampleState).1 = NULL ∧
    getRootWindow xlib (getDisplay xlib (some ":9") sampleState).1
      (getDisplay xlib (some ":9") sampleState).2 = none ∧
    (getRootWindow xlib 1 sampleState).isSome = isOpen sampleState 1 ∧
    isOpen sampleState 1 = true :=
  ⟨by decide, getRootWindow_checks_nothing.2.2.2 sampleState (some ":9") (by decide),
   getRootWindow_checks_nothing.2.1 sampleState 1, rfl⟩

/-- C9: on a live connection `dpy` of the reference library, for every window
`win` and strings `s1`, `s2`: `setRootName dpy win s1` and then `setRootName
dpy win s2` both return, and the final state (servers and connections) is the
one `setRootName dpy win s2` alone leaves; so a second call with the same
arguments leaves the state of the first call unchanged. -/
theorem setRootName_last_write_wins (st : XState) (dpy : Display) (win : Window)
    (s1 s2 : String) (c : Conn) (sv : Server) (hc : st.conn dpy = some c)
    (hs : findServer st.servers c.display = some sv) :
    (∃ st1 st2, setRootName xlib dpy win s1 st = some ((), st1) ∧
      setRootName xlib dpy win s2 st1 = some ((), st2) ∧
      setRootName xlib dpy win s2 st = some ((), st2)) ∧
    (∃ st1, setRootName xlib dpy win s1 st = some ((), st1) ∧
      setRootName xlib dpy win s1 st1 = some ((), st1)) := by
  have key : ∀ a b : String, ∃ st1 st2, setRootName xlib dpy win a st = some ((), st1) ∧
      setRootName xlib dpy win b st1 = some ((), st2) ∧
      setRootName xlib dpy win b st = some ((), st2) := by
    intro a b
    obtain ⟨st1, h1, hconn, hserv⟩ := setRootName_live_obs st dpy win a c sv hc hs
    have hsd : findServer st1.servers c.sent.display = _ := hserv
    have h2 := setRootName_live st1 dpy win b c.sent _ hconn hsd
    refine ⟨st1, _, h1, h2, ?_⟩
    rw [setRootName_live st dpy win b c sv hc hs]
    have e := setRootName_live st dpy win a c sv hc hs
    rw [h1] at e
    simp only [Option.some.injEq, Prod.mk.injEq, true_and] at e
    subst e
    simp only [Conn.sent, List.foldl_nil]
    rw [putServer_putServer, handle_changeName_twice,
      modifyConn_modifyConn Conn.sent Conn.sent (fun _ => rfl)]
    rfl
  refine ⟨key s1 s2, ?_⟩
  obtain ⟨st1, st2, h1, h2, h3⟩ := key s1 s1
  rw [h1] at h3
  simp only [Option.some.injEq, Prod.mk.injEq, true_and] at h3
  subst h3
  exact ⟨st1, h1, h2⟩

/-- C9 at the busy state: "a" then "b" ends where "b" alone ends, with the
root window named "b". -/
theorem setRootName_last_write_wins_witness :
    (∃ st1 st2, setRootName xlib 1 1 "a" busyState = some ((), st1) ∧
      setRootName xlib 1 1 "b" st1 = some ((), st2) ∧
      setRootName xlib 1 1 "b" busyState = some ((), st2)) ∧
    (∃ st1, setRootName xlib 1 1 "a" busyState = some ((), st1) ∧
      setRootName xlib 1 1 "a" st1 = some ((), st1)) :=
  setRootName_last_write_wins busyState 1 1 "a" "b"
    { handle := 1, display := none, root := 1, out := [XRequest.changeName 2 "queued"] }
    { root := 1, children := [2], names := [(1, "old")] } rfl rfl

end LibX
